import Mathlib

/-!
Verification of the smart-city notification fan-out and command/undo core
(`app/models/device.py`, `app/commands/infrastructure_commands.py`,
`app/services/notification_service.py`), shallowly embedded in Lean.

Python dicts keyed by strings are modelled as association lists, Python ints
as `Int`, wall-clock timestamps as `Nat` ticks supplied by the caller, and
Python truthiness is reproduced where the source relies on it
(`if self._previous_state:`, `if device and self._previous_brightness:`).
-/

/-- `DeviceStatus` enum from `app/models/device.py`. -/
inductive DeviceStatus
  | active
  | inactive
  | maintenance
  | err
  deriving DecidableEq, Repr

/-- `StreetLight` dataclass: the fields read or written by the core
(`status`, `brightness`); dataclass defaults `status=INACTIVE`, `brightness=0`. -/
structure StreetLight where
  status : DeviceStatus := .inactive
  brightness : Int := 0
  deriving DecidableEq, Repr

/-- `StreetLight.activate`: sets status ACTIVE and brightness 100, returns True. -/
def StreetLight.activate (_l : StreetLight) : StreetLight × Bool :=
  ({ status := .active, brightness := 100 }, true)

/-- `StreetLight.deactivate`: sets status INACTIVE and brightness 0, returns True. -/
def StreetLight.deactivate (_l : StreetLight) : StreetLight × Bool :=
  ({ status := .inactive, brightness := 0 }, true)

/-- `StreetLight.set_brightness`: validates `0 <= level <= 100`; on success sets
brightness and derives status from `level > 0`, else leaves state unchanged and
returns False. -/
def StreetLight.set_brightness (l : StreetLight) (level : Int) : StreetLight × Bool :=
  if 0 ≤ level ∧ level ≤ 100 then
    ({ status := if level > 0 then .active else .inactive, brightness := level }, true)
  else
    (l, false)

/-- `TrafficSignal` dataclass: fields used by the core (`status`,
`current_signal`); defaults `status=INACTIVE`, `current_signal="red"`. -/
structure TrafficSignal where
  status : DeviceStatus := .inactive
  current_signal : String := "red"
  deriving DecidableEq, Repr

/-- `TrafficSignal.activate`: status ACTIVE, signal "green", returns True. -/
def TrafficSignal.activate (_t : TrafficSignal) : TrafficSignal × Bool :=
  ({ status := .active, current_signal := "green" }, true)

/-- `TrafficSignal.deactivate`: status INACTIVE, signal "red", returns True. -/
def TrafficSignal.deactivate (_t : TrafficSignal) : TrafficSignal × Bool :=
  ({ status := .inactive, current_signal := "red" }, true)

/-- `TrafficSignal.set_signal`: validates membership in `["red","yellow","green"]`;
on success stores the signal and sets status ACTIVE, else unchanged/False. -/
def TrafficSignal.set_signal (t : TrafficSignal) (s : String) : TrafficSignal × Bool :=
  if s = "red" ∨ s = "yellow" ∨ s = "green" then
    ({ status := .active, current_signal := s }, true)
  else
    (t, false)

/-- `SecurityCamera` dataclass: fields used by the core (`status`, `recording`,
`motion_detection`); defaults INACTIVE/False/True. -/
structure SecurityCamera where
  status : DeviceStatus := .inactive
  recording : Bool := false
  motion_detection : Bool := true
  deriving DecidableEq, Repr

/-- `SecurityCamera.activate`: status ACTIVE, recording True, returns True. -/
def SecurityCamera.activate (c : SecurityCamera) : SecurityCamera × Bool :=
  ({ c with status := .active, recording := true }, true)

/-- `SecurityCamera.deactivate`: status INACTIVE, recording False, returns True. -/
def SecurityCamera.deactivate (c : SecurityCamera) : SecurityCamera × Bool :=
  ({ c with status := .inactive, recording := false }, true)

/-- `SecurityCamera.toggle_motion_detection`: flips the flag, returns it. -/
def SecurityCamera.toggle_motion_detection (c : SecurityCamera) : SecurityCamera × Bool :=
  ({ c with motion_detection := !c.motion_detection }, !c.motion_detection)

/-! Public mutator sequences per device kind, for the status invariant. -/

/-- A public mutator call on a street light. -/
inductive SLMut
  | activate
  | deactivate
  | set_brightness (b : Int)
  deriving Repr

/-- Apply one street-light mutator (result value discarded, as callers may). -/
def SLMut.apply (l : StreetLight) : SLMut → StreetLight
  | .activate => l.activate.1
  | .deactivate => l.deactivate.1
  | .set_brightness b => (l.set_brightness b).1

/-- Run a sequence of street-light mutator calls. -/
def SLrun (l : StreetLight) (ms : List SLMut) : StreetLight :=
  ms.foldl SLMut.apply l

/-- A public mutator call on a traffic signal. -/
inductive TSMut
  | activate
  | deactivate
  | set_signal (s : String)
  deriving Repr

/-- Apply one traffic-signal mutator. -/
def TSMut.apply (t : TrafficSignal) : TSMut → TrafficSignal
  | .activate => t.activate.1
  | .deactivate => t.deactivate.1
  | .set_signal s => (t.set_signal s).1

/-- Run a sequence of traffic-signal mutator calls. -/
def TSrun (t : TrafficSignal) (ms : List TSMut) : TrafficSignal :=
  ms.foldl TSMut.apply t

/-- A public mutator call on a security camera. -/
inductive CamMut
  | activate
  | deactivate
  | toggle_motion_detection
  deriving Repr

/-- Apply one camera mutator. -/
def CamMut.apply (c : SecurityCamera) : CamMut → SecurityCamera
  | .activate => c.activate.1
  | .deactivate => c.deactivate.1
  | .toggle_motion_detection => c.toggle_motion_detection.1

/-- Run a sequence of camera mutator calls. -/
def CamRun (c : SecurityCamera) (ms : List CamMut) : SecurityCamera :=
  ms.foldl CamMut.apply c

/-- The dataclass-default street light (registry bootstrap state). -/
def SLinit : StreetLight := {}

/-- The dataclass-default traffic signal. -/
def TSinit : TrafficSignal := {}

/-- The dataclass-default security camera. -/
def CamInit : SecurityCamera := {}

/-- "Signal set": `current_signal` holds one of the three valid values. -/
def signalSet (t : TrafficSignal) : Prop :=
  t.current_signal = "red" ∨ t.current_signal = "yellow" ∨ t.current_signal = "green"

instance (t : TrafficSignal) : Decidable (signalSet t) := by
  unfold signalSet; infer_instance

/-! Device registry and polymorphic device operations, as the commands use them
(`city_controller.get_device`, duck-typed `getattr`/`hasattr` probes). -/

/-- A registered device (the three kinds the command layer manipulates). -/
inductive Device
  | light (l : StreetLight)
  | signal (t : TrafficSignal)
  | camera (c : SecurityCamera)
  deriving DecidableEq, Repr

/-- The registry `_devices: Dict[str, Any]`, keyed by device id. -/
def Registry := List (String × Device)
  deriving DecidableEq, Repr

/-- `self._devices.get(device_id)` (`CityController.get_device`): first
binding of the key wins, as in a dict (keys are unique there). -/
def Registry.get_device : Registry → String → Option Device
  | [], _ => none
  | p :: rest, id => if p.1 = id then some p.2 else get_device rest id

/-- In-place mutation of a fetched device: the Python commands mutate the object
returned by `get_device`, which the dict still references; modelled as replacing
the value stored under that key. -/
def Registry.update : Registry → String → Device → Registry
  | [], _, _ => []
  | p :: rest, id, d => (if p.1 = id then (id, d) else p) :: update rest id d

/-- The device's `status` attribute. -/
def Device.status : Device → DeviceStatus
  | .light l => l.status
  | .signal t => t.status
  | .camera c => c.status

/-- `getattr(device, 'brightness', dflt)`: only street lights have `brightness`. -/
def Device.getattr_brightness (d : Device) (dflt : Int) : Int :=
  match d with
  | .light l => l.brightness
  | _ => dflt

/-- `getattr(device, 'current_signal', dflt)`: only traffic signals have it. -/
def Device.getattr_current_signal (d : Device) (dflt : String) : String :=
  match d with
  | .signal t => t.current_signal
  | _ => dflt

/-- `hasattr(device, 'set_brightness')`. -/
def Device.has_set_brightness : Device → Bool
  | .light _ => true
  | _ => false

/-- `hasattr(device, 'set_signal')`. -/
def Device.has_set_signal : Device → Bool
  | .signal _ => true
  | _ => false

/-- Polymorphic `device.activate()`. -/
def Device.activate : Device → Device × Bool
  | .light l => (.light l.activate.1, l.activate.2)
  | .signal t => (.signal t.activate.1, t.activate.2)
  | .camera c => (.camera c.activate.1, c.activate.2)

/-- Polymorphic `device.deactivate()`. -/
def Device.deactivate : Device → Device × Bool
  | .light l => (.light l.deactivate.1, l.deactivate.2)
  | .signal t => (.signal t.deactivate.1, t.deactivate.2)
  | .camera c => (.camera c.deactivate.1, c.deactivate.2)

/-- `device.set_brightness(b)`; the commands only call it behind the
`hasattr` guard, so the non-light branches are unreachable there. -/
def Device.set_brightness (d : Device) (b : Int) : Device × Bool :=
  match d with
  | .light l => (.light (l.set_brightness b).1, (l.set_brightness b).2)
  | _ => (d, false)

/-- `device.set_signal(s)`; only called behind the `hasattr` guard. -/
def Device.set_signal (d : Device) (s : String) : Device × Bool :=
  match d with
  | .signal t => (.signal (t.set_signal s).1, (t.set_signal s).2)
  | _ => (d, false)

/-! Command result dicts: the keys the device-control commands produce.
`timestamp` is the caller-supplied clock tick standing for
`datetime.now().isoformat()`; failure results carry no timestamp,
exactly as in the source. -/

/-- A command result dict (`{'success': ..., 'error': ..., ...}`). -/
structure CmdResult where
  success : Bool := false
  error : Option String := none
  device_id : Option String := none
  action : Option String := none
  brightness : Option Int := none
  signal : Option String := none
  timestamp : Option Nat := none
  deriving DecidableEq, Repr

/-- `LightOnCommand` state: immutable target/parameter plus the lazily
captured `_previous_state` snapshot. -/
structure LightOnCmd where
  device_id : String
  brightness : Int := 100
  previous_state : Option (DeviceStatus × Int) := none
  deriving DecidableEq, Repr

/-- `LightOnCommand.execute`: on a registered device, snapshot
`{'status', 'brightness'}`, `activate()`, then `set_brightness` behind the
`hasattr` guard; on a missing id return the not-found failure. -/
def LightOnCmd.execute (reg : Registry) (c : LightOnCmd) (clock : Nat) :
    Registry × LightOnCmd × CmdResult :=
  match reg.get_device c.device_id with
  | some d =>
    let c2 := { c with previous_state := some (d.status, d.getattr_brightness 0) }
    let (d1, r) := d.activate
    let d2 := if d1.has_set_brightness then (d1.set_brightness c.brightness).1 else d1
    (reg.update c.device_id d2, c2,
      { success := r, device_id := some c.device_id, action := some "light_on",
        brightness := some c.brightness, timestamp := some clock })
  | none =>
    (reg, c, { success := false, error := some ("Device " ++ c.device_id ++ " not found") })

/-- `LightOnCommand.undo`: if `_previous_state` is truthy (any captured dict)
and the device is found, `deactivate()`; otherwise the no-previous-state failure.
Note it does not write the snapshot back. -/
def LightOnCmd.undo (reg : Registry) (c : LightOnCmd) : Registry × CmdResult :=
  match c.previous_state with
  | some _ =>
    match reg.get_device c.device_id with
    | some d =>
      (reg.update c.device_id d.deactivate.1, { success := true, action := some "undo_light_on" })
    | none => (reg, { success := false, error := some "No previous state to restore" })
  | none => (reg, { success := false, error := some "No previous state to restore" })

/-- `LightOnCommand.get_description`. -/
def LightOnCmd.get_description (c : LightOnCmd) : String :=
  "Turn on light " ++ c.device_id ++ " at " ++ toString c.brightness ++ "% brightness"

/-- `LightOffCommand` state. -/
structure LightOffCmd where
  device_id : String
  previous_brightness : Option Int := none
  deriving DecidableEq, Repr

/-- `LightOffCommand.execute`: snapshot `getattr(device,'brightness',100)`,
then `deactivate()`; not-found failure on a missing id. -/
def LightOffCmd.execute (reg : Registry) (c : LightOffCmd) (clock : Nat) :
    Registry × LightOffCmd × CmdResult :=
  match reg.get_device c.device_id with
  | some d =>
    let c2 := { c with previous_brightness := some (d.getattr_brightness 100) }
    let (d1, r) := d.deactivate
    (reg.update c.device_id d1, c2,
      { success := r, device_id := some c.device_id, action := some "light_off",
        timestamp := some clock })
  | none =>
    (reg, c, { success := false, error := some ("Device " ++ c.device_id ++ " not found") })

/-- `LightOffCommand.undo`: guarded by `if device and self._previous_brightness:`
— Python int truthiness makes a saved brightness of 0 falsy, so it falls through
to `'Cannot undo'`. Otherwise `activate()` then restore the saved brightness. -/
def LightOffCmd.undo (reg : Registry) (c : LightOffCmd) : Registry × CmdResult :=
  match reg.get_device c.device_id, c.previous_brightness with
  | some d, some b =>
    if b ≠ 0 then
      let d1 := d.activate.1
      let d2 := if d1.has_set_brightness then (d1.set_brightness b).1 else d1
      (reg.update c.device_id d2, { success := true, action := some "undo_light_off" })
    else (reg, { success := false, error := some "Cannot undo" })
  | _, _ => (reg, { success := false, error := some "Cannot undo" })

/-- `LightOffCommand.get_description`. -/
def LightOffCmd.get_description (c : LightOffCmd) : String :=
  "Turn off light " ++ c.device_id

/-- Shared state shape of `TrafficGreenCommand` / `TrafficRedCommand`. -/
structure TrafficCmd where
  device_id : String
  previous_signal : Option String := none
  deriving DecidableEq, Repr

/-- `TrafficGreenCommand.execute`: requires the device to exist and to have
`set_signal`; snapshots `getattr(device,'current_signal','red')` then sets
green; otherwise the signal-not-found failure. -/
def TrafficCmd.execute_green (reg : Registry) (c : TrafficCmd) (clock : Nat) :
    Registry × TrafficCmd × CmdResult :=
  match reg.get_device c.device_id with
  | some d =>
    if d.has_set_signal then
      let c2 := { c with previous_signal := some (d.getattr_current_signal "red") }
      let (d1, r) := d.set_signal "green"
      (reg.update c.device_id d1, c2,
        { success := r, device_id := some c.device_id, action := some "traffic_green",
          signal := some "green", timestamp := some clock })
    else
      (reg, c, { success := false, error := some ("Traffic signal " ++ c.device_id ++ " not found") })
  | none =>
    (reg, c, { success := false, error := some ("Traffic signal " ++ c.device_id ++ " not found") })

/-- `TrafficGreenCommand.undo`: guarded by string truthiness of
`_previous_signal` (empty string is falsy), then device presence and the
`hasattr` probe; restores the saved signal. -/
def TrafficCmd.undo_green (reg : Registry) (c : TrafficCmd) : Registry × CmdResult :=
  match c.previous_signal with
  | some s =>
    if s ≠ "" then
      match reg.get_device c.device_id with
      | some d =>
        if d.has_set_signal then
          (reg.update c.device_id (d.set_signal s).1,
            { success := true, action := some "undo_traffic_green" })
        else (reg, { success := false, error := some "Cannot undo" })
      | none => (reg, { success := false, error := some "Cannot undo" })
    else (reg, { success := false, error := some "Cannot undo" })
  | none => (reg, { success := false, error := some "Cannot undo" })

/-- `TrafficRedCommand.execute` (snapshot default `'green'`, sets red). -/
def TrafficCmd.execute_red (reg : Registry) (c : TrafficCmd) (clock : Nat) :
    Registry × TrafficCmd × CmdResult :=
  match reg.get_device c.device_id with
  | some d =>
    if d.has_set_signal then
      let c2 := { c with previous_signal := some (d.getattr_current_signal "green") }
      let (d1, r) := d.set_signal "red"
      (reg.update c.device_id d1, c2,
        { success := r, device_id := some c.device_id, action := some "traffic_red",
          signal := some "red", timestamp := some clock })
    else
      (reg, c, { success := false, error := some ("Traffic signal " ++ c.device_id ++ " not found") })
  | none =>
    (reg, c, { success := false, error := some ("Traffic signal " ++ c.device_id ++ " not found") })

/-- `TrafficRedCommand.undo`. -/
def TrafficCmd.undo_red (reg : Registry) (c : TrafficCmd) : Registry × CmdResult :=
  match c.previous_signal with
  | some s =>
    if s ≠ "" then
      match reg.get_device c.device_id with
      | some d =>
        if d.has_set_signal then
          (reg.update c.device_id (d.set_signal s).1,
            { success := true, action := some "undo_traffic_red" })
        else (reg, { success := false, error := some "Cannot undo" })
      | none => (reg, { success := false, error := some "Cannot undo" })
    else (reg, { success := false, error := some "Cannot undo" })
  | none => (reg, { success := false, error := some "Cannot undo" })

/-- `TrafficGreenCommand.get_description`. -/
def TrafficCmd.description_green (c : TrafficCmd) : String :=
  "Set traffic signal " ++ c.device_id ++ " to green"

/-- `TrafficRedCommand.get_description`. -/
def TrafficCmd.description_red (c : TrafficCmd) : String :=
  "Set traffic signal " ++ c.device_id ++ " to red"

/-! The device-control command family behind the abstract `Command` interface,
and the `CommandInvoker`. (`ProcessPaymentCommand` delegates to the external
banking collaborator and is outside the core per the spec.) -/

/-- A device-control command object with its mutable undo snapshot. -/
inductive DCCommand
  | lightOn (c : LightOnCmd)
  | lightOff (c : LightOffCmd)
  | trafficGreen (c : TrafficCmd)
  | trafficRed (c : TrafficCmd)
  deriving DecidableEq, Repr

/-- The command's target device id. -/
def DCCommand.target_id : DCCommand → String
  | .lightOn c => c.device_id
  | .lightOff c => c.device_id
  | .trafficGreen c => c.device_id
  | .trafficRed c => c.device_id

/-- Dispatch `command.execute()`; returns the possibly-updated registry, the
command with its snapshot possibly captured, and the result dict. -/
def DCCommand.execute (cmd : DCCommand) (reg : Registry) (clock : Nat) :
    Registry × DCCommand × CmdResult :=
  match cmd with
  | .lightOn c => let (r, c2, res) := LightOnCmd.execute reg c clock; (r, .lightOn c2, res)
  | .lightOff c => let (r, c2, res) := LightOffCmd.execute reg c clock; (r, .lightOff c2, res)
  | .trafficGreen c => let (r, c2, res) := TrafficCmd.execute_green reg c clock; (r, .trafficGreen c2, res)
  | .trafficRed c => let (r, c2, res) := TrafficCmd.execute_red reg c clock; (r, .trafficRed c2, res)

/-- Dispatch `command.undo()` (which never changes the stored snapshot). -/
def DCCommand.undo (cmd : DCCommand) (reg : Registry) : Registry × CmdResult :=
  match cmd with
  | .lightOn c => LightOnCmd.undo reg c
  | .lightOff c => LightOffCmd.undo reg c
  | .trafficGreen c => TrafficCmd.undo_green reg c
  | .trafficRed c => TrafficCmd.undo_red reg c

/-- Dispatch `command.get_description()`. -/
def DCCommand.get_description : DCCommand → String
  | .lightOn c => c.get_description
  | .lightOff c => c.get_description
  | .trafficGreen c => c.description_green
  | .trafficRed c => c.description_red

/-- A freshly constructed command: no undo snapshot captured yet
(`_previous_state/_previous_brightness/_previous_signal is None`). -/
def DCCommand.fresh : DCCommand → Bool
  | .lightOn c => c.previous_state = none
  | .lightOff c => c.previous_brightness = none
  | .trafficGreen c => c.previous_signal = none
  | .trafficRed c => c.previous_signal = none

/-- The expected undo-before-execute error message per variant. -/
def DCCommand.fresh_undo_error : DCCommand → String
  | .lightOn _ => "No previous state to restore"
  | _ => "Cannot undo"

/-- Python slicing `l[-k:]` for a non-negative `k`: the last `k` elements,
except that `k = 0` yields the whole list (`-0 == 0`). -/
def pyLastSlice (l : List α) (k : Nat) : List α :=
  if k = 0 then l else l.drop (l.length - k)

/-- One `CommandInvoker` history entry `{'command': ..., 'result': ...,
'timestamp': ...}`; the stored command object is only ever consulted for its
`get_description()`, which depends on immutable fields, so the description is
stored directly. -/
structure HistEntry where
  description : String
  result : CmdResult
  timestamp : Nat
  deriving DecidableEq, Repr

/-- `CommandInvoker` state: unbounded history and the undo stack. -/
structure CommandInvoker where
  history : List HistEntry := []
  undo_stack : List DCCommand := []
  deriving DecidableEq, Repr

/-- `CommandInvoker.execute`: run the command, append `{command, result,
timestamp}` to history, push the executed command onto the undo stack,
return the result. -/
def CommandInvoker.execute (inv : CommandInvoker) (reg : Registry) (cmd : DCCommand)
    (clock : Nat) : CommandInvoker × Registry × CmdResult :=
  let (reg2, cmd2, r) := cmd.execute reg clock
  ({ history := inv.history ++ [⟨cmd2.get_description, r, clock⟩],
     undo_stack := inv.undo_stack ++ [cmd2] }, reg2, r)

/-- `CommandInvoker.undo`: pop the most recent command (LIFO) and run its
`undo()`; `None` when the stack is empty. -/
def CommandInvoker.undo (inv : CommandInvoker) (reg : Registry) :
    CommandInvoker × Registry × Option CmdResult :=
  match inv.undo_stack.getLast? with
  | some cmd =>
    let (reg2, r) := cmd.undo reg
    ({ inv with undo_stack := inv.undo_stack.dropLast }, reg2, some r)
  | none => (inv, reg, none)

/-- One entry of `CommandInvoker.get_history`: `{'command': description,
'success': result.get('success', False), 'timestamp': ...}`. -/
structure HistOut where
  command : String
  success : Bool
  timestamp : Nat
  deriving DecidableEq, Repr

/-- Projection of a stored history entry to a `get_history` row. -/
def HistEntry.toOut (h : HistEntry) : HistOut :=
  ⟨h.description, h.result.success, h.timestamp⟩

/-- `CommandInvoker.get_history(limit)`: `self._history[-limit:]` projected. -/
def CommandInvoker.get_history (inv : CommandInvoker) (limit : Nat) : List HistOut :=
  (pyLastSlice inv.history limit).map HistEntry.toOut

/-! The notification subsystem (`notification_service.py`). -/

/-- A primitive value carried in a notification dict. -/
inductive Val
  | str (s : String)
  | int (n : Int)
  | boolean (b : Bool)
  deriving DecidableEq, Repr

/-- A stored notification: the four built-in fields assigned by `notify()`
plus the caller's `**kwargs`; the merged dict semantics (kwargs override the
built-ins, being spliced last) live in `Notif.get`. -/
structure Notif where
  builtin_id : Nat
  message : String
  ntype : String
  timestamp : Nat
  kwargs : List (String × Val)
  deriving DecidableEq, Repr

/-- Dict lookup `notification.get(k)` on the merged record: a kwargs entry
shadows the built-in field of the same name. -/
def Notif.get (n : Notif) (k : String) : Option Val :=
  match n.kwargs.lookup k with
  | some v => some v
  | none =>
    if k = "id" then some (.int n.builtin_id)
    else if k = "message" then some (.str n.message)
    else if k = "type" then some (.str n.ntype)
    else if k = "timestamp" then some (.int n.timestamp)
    else none

/-- An attached observer for the fan-out model: `raises` says on which
notifications its `update()` raises an exception (before recording anything);
`received` is what it has successfully processed. -/
structure MObserver where
  raises : Notif → Bool
  received : List Notif := []

/-- One `observer.update(notification)` call. -/
def MObserver.update (o : MObserver) (n : Notif) : Except String MObserver :=
  if o.raises n then Except.error "observer fault"
  else Except.ok { o with received := o.received ++ [n] }

/-- The fan-out loop of `notify()` with its per-observer `try/except`:
a raising observer is caught (and logged) and left as it was; iteration
continues with the remaining observers and nothing propagates. -/
def fanout (obs : List MObserver) (n : Notif) : List MObserver :=
  obs.map (fun o =>
    match o.update n with
    | .ok o2 => o2
    | .error _ => o)

/-- `NotificationService` state. -/
structure NotifService where
  observers : List MObserver := []
  notifications : List Notif := []
  security_alerts : List Notif := []

/-- `NotificationService.notify`: build the record with `id =
len(self._notifications) + 1` and the kwargs spliced last, append it to the
log, index it under security alerts when the *parameter* `notification_type`
is security/emergency, then fan out to all observers. -/
def NotifService.notify (s : NotifService) (message notification_type : String)
    (clock : Nat) (kwargs : List (String × Val)) : NotifService × Notif :=
  let n : Notif :=
    { builtin_id := s.notifications.length + 1, message := message,
      ntype := notification_type, timestamp := clock, kwargs := kwargs }
  let s1 := { s with notifications := s.notifications ++ [n] }
  let s2 :=
    if notification_type = "security" ∨ notification_type = "emergency" then
      { s1 with security_alerts := s1.security_alerts ++ [n] }
    else s1
  ({ s2 with observers := fanout s2.observers n }, n)

/-- `NotificationService.get_notifications_by_type`: filter on the record's
(possibly overridden) `'type'` entry. -/
def NotifService.get_notifications_by_type (s : NotifService) (t : String) : List Notif :=
  s.notifications.filter (fun n => n.get "type" == some (Val.str t))

/-- `NotificationService.clear_old_notifications`: when more than `keep_count`
are stored, keep `self._notifications[-keep_count:]` and report the excess. -/
def NotifService.clear_old_notifications (s : NotifService) (keep_count : Nat) :
    NotifService × Nat :=
  if s.notifications.length > keep_count then
    ({ s with notifications := pyLastSlice s.notifications keep_count },
      s.notifications.length - keep_count)
  else (s, 0)

/-- `SecurityObserver.update`: records the notification iff its effective
`'type'` entry is the string `'security'` or `'emergency'`. -/
def securityObserverUpdate (alerts : List Notif) (n : Notif) : List Notif :=
  if n.get "type" == some (Val.str "security") || n.get "type" == some (Val.str "emergency") then
    alerts ++ [n]
  else alerts

/-- A call against the notification log: `notify()` or the trim. -/
inductive NOp
  | notify (message ntype : String) (clock : Nat) (kwargs : List (String × Val))
  | clear_old (keep_count : Nat)

/-- Apply one logged operation. -/
def NotifService.applyOp (s : NotifService) : NOp → NotifService
  | .notify m t c k => (s.notify m t c k).1
  | .clear_old k => (s.clear_old_notifications k).1

/-- Run a sequence of operations. -/
def NotifService.runOps (s : NotifService) (ops : List NOp) : NotifService :=
  ops.foldl NotifService.applyOp s

/-- Arguments of one `notify()` call. -/
def NotifyArgs := String × String × Nat × List (String × Val)

/-- Run a sequence of plain `notify()` calls (no trims). -/
def runNotifies (s : NotifService) : List NotifyArgs → NotifService
  | [] => s
  | a :: rest => runNotifies (s.notify a.1 a.2.1 a.2.2.1 a.2.2.2).1 rest

/-- A fresh `NotificationService`. -/
def svcEmpty : NotifService := {}

/-! Helper lemmas about the registry. -/

/-- Updating a present key makes `get_device` return the new value. -/
theorem Registry.get_update_self (reg : Registry) (id : String) (d d0 : Device)
    (h : reg.get_device id = some d0) : (reg.update id d).get_device id = some d := by
  induction reg with
  | nil => simp [Registry.get_device] at h
  | cons p rest ih =>
    by_cases hk : p.1 = id
    · simp [Registry.get_device, Registry.update, hk]
    · simp [Registry.get_device, Registry.update, hk] at h ⊢
      exact ih h

/-- Updating one key leaves `get_device` at other keys unchanged. -/
theorem Registry.get_update_other (reg : Registry) (id id2 : String) (d : Device)
    (h : id2 ≠ id) : (reg.update id d).get_device id2 = reg.get_device id2 := by
  induction reg with
  | nil => simp [Registry.update]
  | cons p rest ih =>
    by_cases hk : p.1 = id
    · simp [Registry.get_device, Registry.update, hk, Ne.symm h, ih]
    · by_cases hk2 : p.1 = id2 <;>
        simp [Registry.get_device, Registry.update, hk, hk2, ih, h]

/-- C7: for every street light and integer b in [0,100], `set_brightness(b)`
returns true, stores b, and leaves status ACTIVE iff b > 0; for b outside
[0,100] it returns false and leaves brightness and status unchanged. -/
theorem spec_c7_set_brightness (l : StreetLight) (b : Int) :
    ((0 ≤ b ∧ b ≤ 100) →
      (l.set_brightness b).2 = true ∧
      (l.set_brightness b).1.brightness = b ∧
      ((l.set_brightness b).1.status = .active ↔ b > 0)) ∧
    (¬ (0 ≤ b ∧ b ≤ 100) →
      (l.set_brightness b).2 = false ∧ (l.set_brightness b).1 = l) := by
  constructor
  · intro h
    refine ⟨by simp [StreetLight.set_brightness, h], by simp [StreetLight.set_brightness, h], ?_⟩
    by_cases hb : b > 0 <;> simp [StreetLight.set_brightness, h, hb]
  · intro h
    simp [StreetLight.set_brightness, h]

/-- Witness for C7 at b = 50 (in range) and b = 200 (out of range). -/
theorem spec_c7_witness :
    ((SLinit.set_brightness 50).2 = true ∧
      (SLinit.set_brightness 50).1.brightness = 50 ∧
      ((SLinit.set_brightness 50).1.status = .active ↔ (50 : Int) > 0)) ∧
    ((SLinit.set_brightness 200).2 = false ∧ (SLinit.set_brightness 200).1 = SLinit) :=
  ⟨(spec_c7_set_brightness SLinit 50).1 (by decide),
   (spec_c7_set_brightness SLinit 200).2 (by decide)⟩

/-! Status-invariant helper lemmas per device kind. -/

/-- One street-light mutator preserves `status == ACTIVE ↔ brightness > 0`. -/
theorem SLMut_apply_inv (l : StreetLight) (m : SLMut)
    (h : l.status = .active ↔ l.brightness > 0) :
    (SLMut.apply l m).status = .active ↔ (SLMut.apply l m).brightness > 0 := by
  cases m with
  | activate => simp [SLMut.apply, StreetLight.activate]
  | deactivate => simp [SLMut.apply, StreetLight.deactivate]
  | set_brightness b =>
    by_cases hr : 0 ≤ b ∧ b ≤ 100
    · by_cases hb : b > 0 <;> simp [SLMut.apply, StreetLight.set_brightness, hr, hb]
    · simpa [SLMut.apply, StreetLight.set_brightness, hr] using h

/-- The street-light invariant holds after any mutator sequence. -/
theorem SLrun_inv (l : StreetLight) (ms : List SLMut)
    (h : l.status = .active ↔ l.brightness > 0) :
    (SLrun l ms).status = .active ↔ (SLrun l ms).brightness > 0 := by
  induction ms generalizing l with
  | nil => simpa [SLrun] using h
  | cons m rest ih =>
    simpa [SLrun] using ih (SLMut.apply l m) (SLMut_apply_inv l m h)

/-- One camera mutator preserves `status == ACTIVE ↔ recording`. -/
theorem CamMut_apply_inv (c : SecurityCamera) (m : CamMut)
    (h : c.status = .active ↔ c.recording = true) :
    (CamMut.apply c m).status = .active ↔ (CamMut.apply c m).recording = true := by
  cases m with
  | activate => simp [CamMut.apply, SecurityCamera.activate]
  | deactivate => simp [CamMut.apply, SecurityCamera.deactivate]
  | toggle_motion_detection =>
    simpa [CamMut.apply, SecurityCamera.toggle_motion_detection] using h

/-- The camera invariant holds after any mutator sequence. -/
theorem CamRun_inv (c : SecurityCamera) (ms : List CamMut)
    (h : c.status = .active ↔ c.recording = true) :
    (CamRun c ms).status = .active ↔ (CamRun c ms).recording = true := by
  induction ms generalizing c with
  | nil => simpa [CamRun] using h
  | cons m rest ih =>
    simpa [CamRun] using ih (CamMut.apply c m) (CamMut_apply_inv c m h)

/-- One traffic-signal mutator keeps `current_signal` in the valid set. -/
theorem TSMut.apply_signalSet (t : TrafficSignal) (m : TSMut) (h : signalSet t) :
    signalSet (TSMut.apply t m) := by
  cases m with
  | activate => simp [TSMut.apply, TrafficSignal.activate, signalSet]
  | deactivate => simp [TSMut.apply, TrafficSignal.deactivate, signalSet]
  | set_signal s =>
    by_cases hs : s = "red" ∨ s = "yellow" ∨ s = "green"
    · simp [TSMut.apply, TrafficSignal.set_signal, hs, signalSet]
    · simpa [TSMut.apply, TrafficSignal.set_signal, hs] using h

/-- The signal stays in the valid set after any mutator sequence. -/
theorem TSrun_signalSet (t : TrafficSignal) (ms : List TSMut) (h : signalSet t) :
    signalSet (TSrun t ms) := by
  induction ms generalizing t with
  | nil => simpa [TSrun] using h
  | cons m rest ih =>
    simpa [TSrun] using ih (TSMut.apply t m) (TSMut.apply_signalSet t m h)

/-- C3 (amended): from the bootstrap state, after any sequence of public
mutator calls, `status == ACTIVE` iff brightness > 0 for street lights and iff
recording for cameras; for traffic signals `current_signal` always holds one of
red/yellow/green ("signal set") regardless of status, so the claimed
equivalence holds only in the direction ACTIVE → signal set. -/
theorem spec_c3_amended (ms : List SLMut) (cs : List CamMut) (ts : List TSMut) :
    ((SLrun SLinit ms).status = .active ↔ (SLrun SLinit ms).brightness > 0) ∧
    ((CamRun CamInit cs).status = .active ↔ (CamRun CamInit cs).recording = true) ∧
    signalSet (TSrun TSinit ts) :=
  ⟨SLrun_inv SLinit ms (by simp [SLinit]),
   CamRun_inv CamInit cs (by simp [CamInit]),
   TSrun_signalSet TSinit ts (by simp [TSinit, signalSet])⟩

/-- C3 counterexample: a traffic signal after `activate(); deactivate()` is
INACTIVE while its signal is set (to "red"), refuting
`status == Active ↔ signal set` for traffic signals. -/
theorem spec_c3_counterexample :
    ¬ ((TSrun TSinit [.activate, .deactivate]).status = .active ↔
        signalSet (TSrun TSinit [.activate, .deactivate])) := by
  decide

/-- The spec's round-trip scenario: `execute(TurnOn(d)); undo()` with a fresh
`LightOnCommand`, returning the final registry and the undo result. -/
def lightOnRoundTrip (reg : Registry) (id : String) (b : Int) (clock : Nat) :
    Registry × CmdResult :=
  let e := LightOnCmd.execute reg { device_id := id, brightness := b, previous_state := none } clock
  LightOnCmd.undo e.1 e.2.1

/-- Pre-state for the C1 counterexample: a registered light already on at 50%. -/
def c1Reg : Registry := [("SL1", Device.light { status := .active, brightness := 50 })]

/-- C1 counterexample: on a light that is ACTIVE at brightness 50 before
`execute`, the round-trip ends INACTIVE at brightness 0, so the pre-execute
status and brightness are not restored. -/
theorem spec_c1_counterexample :
    (lightOnRoundTrip c1Reg "SL1" 100 0).1.get_device "SL1" =
      some (Device.light { status := .inactive, brightness := 0 }) ∧
    (lightOnRoundTrip c1Reg "SL1" 100 0).1.get_device "SL1" ≠ c1Reg.get_device "SL1" := by
  decide

/-- C1 (amended): for every registered street light, `execute(TurnOn(d));
undo()` reports success but always leaves d INACTIVE with brightness 0 —
`undo()` only calls `deactivate()` and never writes the snapshot back — so the
round-trip restores the exact pre-execute status and brightness iff that state
was already INACTIVE with brightness 0. -/
theorem spec_c1_amended (reg : Registry) (id : String) (l : StreetLight) (b : Int) (clock : Nat)
    (h : reg.get_device id = some (Device.light l)) :
    (lightOnRoundTrip reg id b clock).2.success = true ∧
    (lightOnRoundTrip reg id b clock).1.get_device id =
      some (Device.light { status := .inactive, brightness := 0 }) ∧
    ((lightOnRoundTrip reg id b clock).1.get_device id = reg.get_device id ↔
      l.status = .inactive ∧ l.brightness = 0) := by
  obtain ⟨ls, lb⟩ := l
  have hup : ∀ d : Device, (reg.update id d).get_device id = some d :=
    fun d => Registry.get_update_self reg id d _ h
  have hup2 : ∀ d d2 : Device, ((reg.update id d).update id d2).get_device id = some d2 :=
    fun d d2 => Registry.get_update_self _ id d2 _ (hup d)
  simp [lightOnRoundTrip, LightOnCmd.execute, h, Device.activate, StreetLight.activate,
    Device.has_set_brightness, Device.set_brightness, LightOnCmd.undo, hup, hup2,
    Device.deactivate, StreetLight.deactivate, Device.status, Device.getattr_brightness,
    StreetLight.mk.injEq, eq_comm]

/-- Witness for the amended C1 on `c1Reg`. -/
theorem spec_c1_witness :
    c1Reg.get_device "SL1" = some (Device.light { status := .active, brightness := 50 }) ∧
    ((lightOnRoundTrip c1Reg "SL1" 100 0).2.success = true ∧
      (lightOnRoundTrip c1Reg "SL1" 100 0).1.get_device "SL1" =
        some (Device.light { status := .inactive, brightness := 0 }) ∧
      ((lightOnRoundTrip c1Reg "SL1" 100 0).1.get_device "SL1" = c1Reg.get_device "SL1" ↔
        (StreetLight.mk .active 50).status = .inactive ∧
          (StreetLight.mk .active 50).brightness = 0)) :=
  ⟨by decide, spec_c1_amended c1Reg "SL1" { status := .active, brightness := 50 } 100 0 (by decide)⟩

/-- The scenario for the zero-brightness undo: `execute(TurnOff(d)); undo()`
with a fresh `LightOffCommand`; returns the final registry, the execute result
and the undo result. -/
def lightOffRoundTrip (reg : Registry) (id : String) (clock : Nat) :
    Registry × CmdResult × CmdResult :=
  let e := LightOffCmd.execute reg { device_id := id, previous_brightness := none } clock
  let u := LightOffCmd.undo e.1 e.2.1
  (u.1, e.2.2, u.2)

/-- C10: on a registered street light with brightness 0, `LightOffCommand`
executes successfully, but the saved previous brightness 0 is falsy, so the
subsequent `undo()` returns the `Cannot undo` failure and the light stays
INACTIVE at brightness 0. -/
theorem spec_c10_zero_brightness_undo (reg : Registry) (id : String) (l : StreetLight)
    (clock : Nat) (h : reg.get_device id = some (Device.light l)) (hb : l.brightness = 0) :
    (lightOffRoundTrip reg id clock).2.1.success = true ∧
    (lightOffRoundTrip reg id clock).2.2 = { success := false, error := some "Cannot undo" } ∧
    (lightOffRoundTrip reg id clock).1.get_device id =
      some (Device.light { status := .inactive, brightness := 0 }) := by
  have hup : ∀ d : Device, (reg.update id d).get_device id = some d :=
    fun d => Registry.get_update_self reg id d _ h
  simp [lightOffRoundTrip, LightOffCmd.execute, h, Device.deactivate, StreetLight.deactivate,
    Device.getattr_brightness, hb, LightOffCmd.undo, hup]

/-- Witness for C10 on a concrete off light. -/
theorem spec_c10_witness :
    Registry.get_device [("SL1", Device.light { status := .inactive, brightness := 0 })] "SL1" =
        some (Device.light { status := .inactive, brightness := 0 }) ∧
    (StreetLight.mk .inactive 0).brightness = 0 ∧
    ((lightOffRoundTrip [("SL1", Device.light { status := .inactive, brightness := 0 })] "SL1" 0).2.1.success = true ∧
      (lightOffRoundTrip [("SL1", Device.light { status := .inactive, brightness := 0 })] "SL1" 0).2.2 =
        { success := false, error := some "Cannot undo" } ∧
      (lightOffRoundTrip [("SL1", Device.light { status := .inactive, brightness := 0 })] "SL1" 0).1.get_device "SL1" =
        some (Device.light { status := .inactive, brightness := 0 })) :=
  ⟨by decide, by decide,
   spec_c10_zero_brightness_undo _ "SL1" { status := .inactive, brightness := 0 } 0
     (by decide) (by decide)⟩

/-- C6: a device-control command whose undo snapshot has never been captured
(no successful `execute()` yet) fails `undo()` with the variant's
no-previous-state / cannot-undo error and leaves the registry untouched. -/
theorem spec_c6_undo_before_execute (reg : Registry) (cmd : DCCommand)
    (h : cmd.fresh = true) :
    cmd.undo reg = (reg, { success := false, error := some cmd.fresh_undo_error }) := by
  cases cmd with
  | lightOn c =>
    simp [DCCommand.fresh] at h
    simp [DCCommand.undo, LightOnCmd.undo, h, DCCommand.fresh_undo_error]
  | lightOff c =>
    simp [DCCommand.fresh] at h
    cases hd : reg.get_device c.device_id <;>
      simp [DCCommand.undo, LightOffCmd.undo, h, hd, DCCommand.fresh_undo_error]
  | trafficGreen c =>
    simp [DCCommand.fresh] at h
    simp [DCCommand.undo, TrafficCmd.undo_green, h, DCCommand.fresh_undo_error]
  | trafficRed c =>
    simp [DCCommand.fresh] at h
    simp [DCCommand.undo, TrafficCmd.undo_red, h, DCCommand.fresh_undo_error]

/-- Witness for C6: a fresh `LightOffCommand` against a nonempty registry. -/
theorem spec_c6_witness :
    (DCCommand.lightOff { device_id := "SL1" }).fresh = true ∧
    (DCCommand.lightOff { device_id := "SL1" }).undo
        [("SL1", Device.light { status := .active, brightness := 50 })] =
      ([("SL1", Device.light { status := .active, brightness := 50 })],
        { success := false,
          error := some (DCCommand.lightOff { device_id := "SL1" }).fresh_undo_error }) :=
  ⟨by decide,
   spec_c6_undo_before_execute [("SL1", Device.light { status := .active, brightness := 50 })]
     (DCCommand.lightOff { device_id := "SL1" }) (by decide)⟩

/-- The not-found error message each device-control variant produces. -/
def DCCommand.notfound_error : DCCommand → String
  | .lightOn c => "Device " ++ c.device_id ++ " not found"
  | .lightOff c => "Device " ++ c.device_id ++ " not found"
  | .trafficGreen c => "Traffic signal " ++ c.device_id ++ " not found"
  | .trafficRed c => "Traffic signal " ++ c.device_id ++ " not found"

/-- C4: executing any device-control command through the Invoker against an id
absent from the registry returns the structured not-found failure (no
exception), leaves the registry unchanged, and still appends a history entry
whose result records `success: false`. -/
theorem spec_c4_not_found (inv : CommandInvoker) (reg : Registry) (cmd : DCCommand)
    (clock : Nat) (h : reg.get_device cmd.target_id = none) :
    (inv.execute reg cmd clock).2.2 =
      { success := false, error := some cmd.notfound_error } ∧
    (inv.execute reg cmd clock).2.1 = reg ∧
    (inv.execute reg cmd clock).1.history =
      inv.history ++
        [⟨cmd.get_description, { success := false, error := some cmd.notfound_error }, clock⟩] := by
  cases cmd with
  | lightOn c =>
    simp [DCCommand.target_id] at h
    simp [CommandInvoker.execute, DCCommand.execute, LightOnCmd.execute, h,
      DCCommand.notfound_error, DCCommand.get_description]
  | lightOff c =>
    simp [DCCommand.target_id] at h
    simp [CommandInvoker.execute, DCCommand.execute, LightOffCmd.execute, h,
      DCCommand.notfound_error, DCCommand.get_description]
  | trafficGreen c =>
    simp [DCCommand.target_id] at h
    simp [CommandInvoker.execute, DCCommand.execute, TrafficCmd.execute_green, h,
      DCCommand.notfound_error, DCCommand.get_description]
  | trafficRed c =>
    simp [DCCommand.target_id] at h
    simp [CommandInvoker.execute, DCCommand.execute, TrafficCmd.execute_red, h,
      DCCommand.notfound_error, DCCommand.get_description]

/-- Witness for C4: `execute(TurnOn("SL999"))` against an empty registry. -/
theorem spec_c4_witness :
    (Registry.get_device [] (DCCommand.lightOn { device_id := "SL999" }).target_id = none) ∧
    ((CommandInvoker.execute {} [] (DCCommand.lightOn { device_id := "SL999" }) 0).2.2 =
        { success := false,
          error := some (DCCommand.lightOn { device_id := "SL999" }).notfound_error } ∧
      (CommandInvoker.execute {} [] (DCCommand.lightOn { device_id := "SL999" }) 0).2.1 = [] ∧
      (CommandInvoker.execute {} [] (DCCommand.lightOn { device_id := "SL999" }) 0).1.history =
        ([] : List HistEntry) ++
          [⟨(DCCommand.lightOn { device_id := "SL999" }).get_description,
            { success := false,
              error := some (DCCommand.lightOn { device_id := "SL999" }).notfound_error }, 0⟩]) :=
  ⟨by decide,
   spec_c4_not_found {} [] (DCCommand.lightOn { device_id := "SL999" }) 0 (by decide)⟩

/-- C8 counterexample: with one stored entry, `get_history(0)` returns that
entry (Python `[-0:]` is the whole list), not `min(0, 1) = 0` entries. -/
theorem spec_c8_counterexample :
    (CommandInvoker.get_history { history := [⟨"Turn off light SL1", { success := true }, 5⟩] } 0).length = 1 ∧
    ¬ ((CommandInvoker.get_history { history := [⟨"Turn off light SL1", { success := true }, 5⟩] } 0).length =
        min 0 (CommandInvoker.history { history := [⟨"Turn off light SL1", { success := true }, 5⟩] }).length) := by
  decide

/-- C8 (amended): for every limit ≥ 1, `get_history(limit)` returns exactly
the most recent `min(limit, n)` history entries, in order (most-recent-last),
each projected to its description, success flag and timestamp; `limit = 0`
instead returns the entire history. -/
theorem spec_c8_amended (inv : CommandInvoker) (limit : Nat) (h : 1 ≤ limit) :
    inv.get_history limit =
      (inv.history.drop (inv.history.length - limit)).map HistEntry.toOut ∧
    (inv.get_history limit).length = min limit inv.history.length := by
  have hz : ¬ limit = 0 := by omega
  constructor
  · simp [CommandInvoker.get_history, pyLastSlice, hz]
  · simp [CommandInvoker.get_history, pyLastSlice, hz, List.length_drop]
    omega

/-- Witness for the amended C8: two entries, limit 1. -/
theorem spec_c8_witness :
    (1 : Nat) ≤ 1 ∧
    (CommandInvoker.get_history
        { history := [⟨"a", { success := true }, 1⟩, ⟨"b", { success := false }, 2⟩] } 1 =
      (([⟨"a", { success := true }, 1⟩, ⟨"b", { success := false }, 2⟩] : List HistEntry).drop
          (([⟨"a", { success := true }, 1⟩, ⟨"b", { success := false }, 2⟩] : List HistEntry).length - 1)).map
        HistEntry.toOut ∧
    (CommandInvoker.get_history
        { history := [⟨"a", { success := true }, 1⟩, ⟨"b", { success := false }, 2⟩] } 1).length =
      min 1 ([⟨"a", { success := true }, 1⟩, ⟨"b", { success := false }, 2⟩] : List HistEntry).length) :=
  ⟨le_refl 1,
   spec_c8_amended { history := [⟨"a", { success := true }, 1⟩, ⟨"b", { success := false }, 2⟩] } 1
     (le_refl 1)⟩

/-! Helper lemmas about `notify()`. -/

/-- `notify()` appends exactly the record it returns to the log. -/
theorem notify_notifications (s : NotifService) (m t : String) (c : Nat)
    (k : List (String × Val)) :
    (s.notify m t c k).1.notifications = s.notifications ++ [(s.notify m t c k).2] := by
  by_cases hsec : t = "security" ∨ t = "emergency" <;> simp [NotifService.notify, hsec]

/-- The id `notify()` assigns is the current stored count plus one. -/
theorem notify_id (s : NotifService) (m t : String) (c : Nat) (k : List (String × Val)) :
    (s.notify m t c k).2.builtin_id = s.notifications.length + 1 := rfl

/-- `notify()` appends to the security-alerts index iff the `notification_type`
parameter is security or emergency. -/
theorem notify_security_alerts (s : NotifService) (m t : String) (c : Nat)
    (k : List (String × Val)) :
    (s.notify m t c k).1.security_alerts =
      s.security_alerts ++
        (if t = "security" ∨ t = "emergency" then [(s.notify m t c k).2] else []) := by
  by_cases hsec : t = "security" ∨ t = "emergency" <;> simp [NotifService.notify, hsec]

/-- Ids of a pure `notify()` sequence continue the range `len+1, len+2, …`. -/
theorem runNotifies_ids (args : List NotifyArgs) (s : NotifService) :
    (runNotifies s args).notifications.map Notif.builtin_id =
      s.notifications.map Notif.builtin_id ++
        List.range' (s.notifications.length + 1) args.length := by
  induction args generalizing s with
  | nil => simp [runNotifies]
  | cons a rest ih =>
    rw [runNotifies, ih, notify_notifications]
    simp [List.range'_succ, notify_id]

/-- Each log operation either appends one new record to the log or keeps a
suffix of the existing records unchanged (never mutating a stored record). -/
theorem applyOp_append_or_suffix (s : NotifService) (op : NOp) :
    (∃ n, (s.applyOp op).notifications = s.notifications ++ [n]) ∨
      List.IsSuffix (s.applyOp op).notifications s.notifications := by
  cases op with
  | notify m t c k => exact Or.inl ⟨_, notify_notifications s m t c k⟩
  | clear_old k =>
    right
    simp only [NotifService.applyOp, NotifService.clear_old_notifications]
    split
    · simp only [pyLastSlice]
      split
      · exact List.suffix_refl _
      · exact List.drop_suffix _ _
    · exact List.suffix_refl _

/-- C2 (amended): notification ids are monotonic only while no trim happens —
from a fresh service, a pure sequence of `notify()` calls yields ids
`1, 2, …, n` in order (so each new id exceeds every earlier one) — and stored
notifications are never mutated: every `notify()`/`clear_old` call either
appends one new record or keeps a suffix of the stored records unchanged.
After a trim, `id = count + 1` makes ids decrease and repeat. -/
theorem spec_c2_amended :
    (∀ args : List NotifyArgs,
      (runNotifies svcEmpty args).notifications.map Notif.builtin_id =
        List.range' 1 args.length) ∧
    (∀ (s : NotifService) (op : NOp),
      (∃ n, (s.applyOp op).notifications = s.notifications ++ [n]) ∨
        List.IsSuffix (s.applyOp op).notifications s.notifications) :=
  ⟨fun args => by simpa [svcEmpty] using runNotifies_ids args svcEmpty,
   applyOp_append_or_suffix⟩

/-- C2 counterexample: after three notifications (ids 1, 2, 3) and
`clear_old(1)`, the next `notify()` receives id 2, which is not strictly
greater than the previously created id 3. -/
theorem spec_c2_counterexample :
    ((svcEmpty.runOps [.notify "a" "info" 0 [], .notify "b" "info" 1 []]).notify
        "c" "info" 2 []).2.builtin_id = 3 ∧
    ((svcEmpty.runOps [.notify "a" "info" 0 [], .notify "b" "info" 1 [],
        .notify "c" "info" 2 [], .clear_old 1]).notify "d" "info" 3 []).2.builtin_id = 2 ∧
    ¬ (((svcEmpty.runOps [.notify "a" "info" 0 [], .notify "b" "info" 1 [],
          .notify "c" "info" 2 [], .clear_old 1]).notify "d" "info" 3 []).2.builtin_id >
        ((svcEmpty.runOps [.notify "a" "info" 0 [], .notify "b" "info" 1 []]).notify
          "c" "info" 2 []).2.builtin_id) := by
  refine ⟨rfl, rfl, by decide⟩

/-- C5: if the observer at position i raises during fan-out, every observer at
a later position j whose `update()` does not itself raise still receives the
notification (its received log gains exactly that notification); `fanout` is a
total function, so nothing propagates to the caller of `notify()`. -/
theorem spec_c5_fault_isolation (obs : List MObserver) (n : Notif) (i j : Nat)
    (hij : i < j)
    (hraise : ∃ oi, obs[i]? = some oi ∧ oi.raises n = true)
    (oj : MObserver) (hoj : obs[j]? = some oj) (hok : oj.raises n = false) :
    (fanout obs n)[j]? = some { oj with received := oj.received ++ [n] } := by
  simp [fanout, List.getElem?_map, hoj, MObserver.update, hok]

/-- An observer whose `update()` always raises. -/
def obsRaiser : MObserver := { raises := fun _ => true }

/-- An observer whose `update()` never raises. -/
def obsOk : MObserver := { raises := fun _ => false }

/-- The notification used in the C5 witness. -/
def c5notif : Notif :=
  { builtin_id := 1, message := "Gate breach", ntype := "emergency", timestamp := 0, kwargs := [] }

/-- Witness for C5: a raising observer attached before a healthy one does not
stop delivery to the healthy one. -/
theorem spec_c5_witness :
    (0 : Nat) < 1 ∧
    ([obsRaiser, obsOk][0]? = some obsRaiser ∧ obsRaiser.raises c5notif = true) ∧
    [obsRaiser, obsOk][1]? = some obsOk ∧
    obsOk.raises c5notif = false ∧
    (fanout [obsRaiser, obsOk] c5notif)[1]? =
      some { obsOk with received := obsOk.received ++ [c5notif] } :=
  ⟨by decide, ⟨rfl, rfl⟩, rfl, rfl,
   spec_c5_fault_isolation [obsRaiser, obsOk] c5notif 0 1 (by decide)
     ⟨obsRaiser, rfl, rfl⟩ obsOk rfl rfl⟩

/-- C9: a caller-supplied kwarg shadows the built-in field of the same name
(in particular `'id'`, `'type'`, `'message'`, `'timestamp'`), so the type-based
query and the SecurityObserver filter both act on the overridden `'type'`
value, while the security-alerts indexing still follows the original
`notification_type` parameter. -/
theorem spec_c9_kwargs_override (s : NotifService) (m t q : String) (clock : Nat)
    (kwargs : List (String × Val)) (k : String) (v : Val)
    (hk : kwargs.lookup k = some v) :
    ((s.notify m t clock kwargs).2).get k = some v ∧
    (s.notify m t clock kwargs).1.get_notifications_by_type q =
      s.get_notifications_by_type q ++
        (if (s.notify m t clock kwargs).2.get "type" == some (Val.str q) then
          [(s.notify m t clock kwargs).2] else []) ∧
    (s.notify m t clock kwargs).1.security_alerts =
      s.security_alerts ++
        (if t = "security" ∨ t = "emergency" then [(s.notify m t clock kwargs).2] else []) ∧
    (securityObserverUpdate [] ((s.notify m t clock kwargs).2) =
        [(s.notify m t clock kwargs).2] ↔
      ((s.notify m t clock kwargs).2.get "type" = some (Val.str "security") ∨
        (s.notify m t clock kwargs).2.get "type" = some (Val.str "emergency"))) := by
  refine ⟨?_, ?_, notify_security_alerts s m t clock kwargs, ?_⟩
  · simp [NotifService.notify, Notif.get, hk]
  · rw [NotifService.get_notifications_by_type, notify_notifications, List.filter_append]
    rw [NotifService.get_notifications_by_type]
    congr 1
    rcases hb : ((s.notify m t clock kwargs).2.get "type" == some (Val.str q)) with _ | _ <;>
      simp [List.filter, hb]
  · simp only [securityObserverUpdate]
    split
    next hcond =>
      simp only [List.nil_append, beq_iff_eq, Bool.or_eq_true] at hcond ⊢
      simpa using hcond
    next hcond =>
      simp only [beq_iff_eq, Bool.or_eq_true] at hcond ⊢
      simpa using hcond

/-- Witness for C9: `notify("alert", "security", type="info")` — the record's
effective type reads "info", the type query files it under "info", yet it is
still indexed as a security alert, and the SecurityObserver skips it. -/
theorem spec_c9_witness :
    ([("type", Val.str "info")].lookup "type" = some (Val.str "info")) ∧
    (((svcEmpty.notify "alert" "security" 0 [("type", Val.str "info")]).2).get "type" =
        some (Val.str "info") ∧
      (svcEmpty.notify "alert" "security" 0 [("type", Val.str "info")]).1.get_notifications_by_type "info" =
        svcEmpty.get_notifications_by_type "info" ++
          (if (svcEmpty.notify "alert" "security" 0 [("type", Val.str "info")]).2.get "type" ==
              some (Val.str "info") then
            [(svcEmpty.notify "alert" "security" 0 [("type", Val.str "info")]).2]
          else []) ∧
      (svcEmpty.notify "alert" "security" 0 [("type", Val.str "info")]).1.security_alerts =
        svcEmpty.security_alerts ++
          (if ("security" : String) = "security" ∨ ("security" : String) = "emergency" then
            [(svcEmpty.notify "alert" "security" 0 [("type", Val.str "info")]).2]
          else []) ∧
      (securityObserverUpdate []
          ((svcEmpty.notify "alert" "security" 0 [("type", Val.str "info")]).2) =
          [(svcEmpty.notify "alert" "security" 0 [("type", Val.str "info")]).2] ↔
        ((svcEmpty.notify "alert" "security" 0 [("type", Val.str "info")]).2.get "type" =
            some (Val.str "security") ∨
          (svcEmpty.notify "alert" "security" 0 [("type", Val.str "info")]).2.get "type" =
            some (Val.str "emergency")))) :=
  ⟨rfl,
   spec_c9_kwargs_override svcEmpty "alert" "security" "info" 0 [("type", Val.str "info")]
     "type" (Val.str "info") rfl⟩
